import Mathlib

set_option linter.unnecessarySeqFocus false

/-!
Shallow embedding of the Linux security audit tool (src/linux-code.py).

The script keeps three module-level globals (`report`, `score`, `max_score`),
bundled here into the state `St`.  Every external effect the checks perform
is mediated by three primitives, bundled into `Env`:
  * `run_command c`  — the helper `run_command` (returns `none` when the
    subprocess exits non-zero, times out, or cannot be launched);
  * `path_exists p`  — `os.path.exists(p)`;
  * `stat_mode p`    — `oct(os.stat(p).st_mode)[-3:]`, `none` when
    `os.stat` raises.
Each audit check mutates the globals, so it is embedded as a function
`Env → St → St`; `check_cis_umask` can raise an uncaught `TypeError`
(membership test on `None`), so it returns `St × Option String`, the
second component being the propagated exception, if any.
-/

namespace LinuxAudit

/-- One entry of the global `report` list: the dict literals appended by the
checks, with fields `check`, `status`, `message`, `recommendation`. -/
structure CheckResult where
  check : String
  status : String
  message : String
  recommendation : String
deriving DecidableEq, Repr

/-- The module-level globals `report`, `score`, `max_score`. -/
structure St where
  report : List CheckResult
  score : Nat
  max_score : Nat
deriving DecidableEq, Repr

/-- The initial values of the globals (lines 16-19 of the source). -/
def initSt : St := ⟨[], 0, 0⟩

/-- The external world as seen through the three probe primitives. -/
structure Env where
  run_command : String → Option String
  path_exists : String → Bool
  stat_mode : String → Option String

/-- `report.append r` on the bundled state. -/
def append1 (st : St) (r : CheckResult) : St :=
  { st with report := st.report ++ [r] }

/-- Python substring membership `needle in hay`. -/
def pyIn (needle hay : String) : Bool :=
  decide (needle.data <:+: hay.data)

/-- Rendering of a possibly-`None` value inside a Python f-string. -/
def pyStr : Option String → String
  | none => "None"
  | some s => s

/-- `check_firewall` (lines 48-78): `max_score += 1`, probe
`systemctl is-active ufw`, PASS/FAIL/ERROR on active/inactive/other. -/
def check_firewall (env : Env) (st : St) : St :=
  let st := { st with max_score := st.max_score + 1 }
  let status := env.run_command "systemctl is-active ufw"
  if status = some "active" then
    let st := append1 st ⟨"Firewall", "PASS", "Firewall (ufw) is active.", "None."⟩
    { st with score := st.score + 1 }
  else if status = some "inactive" then
    append1 st ⟨"Firewall", "FAIL", "Firewall (ufw) is INACTIVE.",
      "Enable the firewall using sudo ufw enable."⟩
  else
    append1 st ⟨"Firewall", "ERROR", "Could not determine ufw status. Is ufw installed?",
      "If this is not an Ubuntu/Debian system, you may need to check for firewalld."⟩

/-- `check_ssh_config` (lines 80-115): `max_score += 1`; ERROR and early
return when the config file is missing; otherwise grep for
`^PermitRootLogin`, PASS exactly on `PermitRootLogin no`, else FAIL
quoting the found text (the f-string renders `None` when the probe
yielded no output). -/
def check_ssh_config (env : Env) (st : St) : St :=
  let st := { st with max_score := st.max_score + 1 }
  if env.path_exists "/etc/ssh/sshd_config" = false then
    append1 st ⟨"SSH Root Login", "ERROR",
      "SSH config file not found at /etc/ssh/sshd_config.",
      "Ensure SSH server is installed correctly."⟩
  else
    let config := env.run_command "grep ^PermitRootLogin /etc/ssh/sshd_config || true"
    if config = some "PermitRootLogin no" then
      let st := append1 st ⟨"SSH Root Login", "PASS", "PermitRootLogin is set to no.", "None."⟩
      { st with score := st.score + 1 }
    else
      append1 st ⟨"SSH Root Login", "FAIL",
        "PermitRootLogin is NOT securely set to no. Found: " ++ pyStr config,
        "Edit /etc/ssh/sshd_config and set PermitRootLogin no and restart the SSH service."⟩

/-- The dict `files_to_check` (lines 122-125), already normalised to lists
as the loop body does. -/
def files_to_check : List (String × List String) :=
  [("/etc/passwd", ["644"]), ("/etc/shadow", ["640", "600", "400"])]

/-- One iteration of the loop body of `check_file_permissions`
(lines 127-166): `max_score += 1`, ERROR on missing file, else stat;
PASS when the octal mode is in the allowed list, FAIL otherwise, ERROR
when `os.stat` raises. -/
def check_one_file (env : Env) (st : St) (file_path : String)
    (expected_perms_list : List String) : St :=
  let st := { st with max_score := st.max_score + 1 }
  if env.path_exists file_path = false then
    append1 st ⟨"Permissions: " ++ file_path, "ERROR",
      "File not found: " ++ file_path ++ ".",
      "This is a critical system file. Investigate immediately."⟩
  else
    match env.stat_mode file_path with
    | some perms =>
        if perms ∈ expected_perms_list then
          let st := append1 st ⟨"Permissions: " ++ file_path, "PASS",
            "Permissions are " ++ perms ++ ".", "None."⟩
          { st with score := st.score + 1 }
        else
          append1 st ⟨"Permissions: " ++ file_path, "FAIL",
            "Permissions are " ++ perms ++ " (Expected: " ++ toString expected_perms_list ++ ").",
            "Run sudo chmod " ++ expected_perms_list.headD "" ++ " " ++ file_path ++ "."⟩
    | none =>
        append1 st ⟨"Permissions: " ++ file_path, "ERROR",
          "Could not check permissions: stat failed",
          "Investigate file system issue."⟩

/-- `check_file_permissions` (lines 117-166): the loop over
`files_to_check`. -/
def check_file_permissions (env : Env) (st : St) : St :=
  files_to_check.foldl (fun st fp => check_one_file env st fp.1 fp.2) st

/-- `check_unused_services` (lines 168-188): informational, never touches
`score` or `max_score`. -/
def check_unused_services (env : Env) (st : St) : St :=
  match env.run_command
      "systemctl list-unit-files --type=service --state=enabled | grep .service" with
  | some services =>
      append1 st ⟨"Enabled Services", "INFO",
        "Review this list for any services you dont need.",
        "Disable unneeded services with sudo systemctl disable <service_name>.\nServices found:\n"
          ++ services⟩
  | none =>
      append1 st ⟨"Enabled Services", "ERROR", "Could not list enabled services.",
        "Check systemctl logs."⟩

/-- `check_cis_umask` (lines 190-213): `max_score += 1`, grep for `^umask`
in /etc/profile.  When `run_command` returns `None`, the Python test
`"umask 027" in umask_setting` raises `TypeError` — modelled as a `some`
exception in the second component, carrying the state as mutated so far. -/
def check_cis_umask (env : Env) (st : St) : St × Option String :=
  let st := { st with max_score := st.max_score + 1 }
  match env.run_command "grep ^umask /etc/profile || true" with
  | none => (st, some "TypeError: argument of type NoneType is not iterable")
  | some umask_setting =>
      if pyIn "umask 027" umask_setting || pyIn "umask 077" umask_setting then
        let st := append1 st ⟨"CIS: Default Umask", "PASS",
          "Umask setting found: " ++ umask_setting, "None."⟩
        ({ st with score := st.score + 1 }, none)
      else
        (append1 st ⟨"CIS: Default Umask", "FAIL",
          "Default umask is not set to 027 or 077. Found: " ++ umask_setting,
          "Add or edit the umask 027 line in /etc/profile or /etc/bash.bashrc."⟩, none)

/-- `check_rootkits` (lines 215-254): informational, never touches `score`
or `max_score`; ERROR when rkhunter is absent or the scan fails, WARNING
when the output contains `Warning:`, PASS otherwise. -/
def check_rootkits (env : Env) (st : St) : St :=
  if env.run_command "command -v rkhunter" = none then
    append1 st ⟨"Rootkit Scan", "ERROR", "rkhunter is not installed.",
      "Install rkhunter (sudo apt install rkhunter) and run sudo rkhunter --update then sudo rkhunter --check."⟩
  else
    match env.run_command "sudo rkhunter --check --rwo" with
    | none =>
        append1 st ⟨"Rootkit Scan", "ERROR", "rkhunter scan failed to run.",
          "Run sudo rkhunter --check manually to debug."⟩
    | some scan_output =>
        if pyIn "Warning:" scan_output then
          append1 st ⟨"Rootkit Scan", "WARNING",
            "rkhunter found warnings. This is common on new installs (e.g., file prop changes).",
            "Run sudo rkhunter --check manually to review. Warnings found:\n" ++ scan_output⟩
        else
          append1 st ⟨"Rootkit Scan", "PASS", "rkhunter scan completed with no warnings.",
            "None."⟩

/-- The sequence of check calls in `main` (lines 271-276), starting from an
arbitrary current value of the globals.  An uncaught exception from
`check_cis_umask` aborts the remaining calls, exactly as in Python. -/
def runAuditFrom (env : Env) (st : St) : St × Option String :=
  let st := check_firewall env st
  let st := check_ssh_config env st
  let st := check_file_permissions env st
  match check_cis_umask env st with
  | (st, some e) => (st, some e)
  | (st, none) =>
      let st := check_unused_services env st
      (check_rootkits env st, none)

/-- A full audit invocation on a fresh process: the globals start at their
initial values. -/
def runAudit (env : Env) : St × Option String :=
  runAuditFrom env initSt

/-- The final-score branch of `main` (lines 294-299): a numeric percentage
`(score / max_score) * 100` when `max_score > 0`, otherwise the
non-numeric "No scorable checks were completed" outcome (`none`). -/
def percentage (st : St) : Option ℚ :=
  if st.max_score > 0 then some (((st.score : ℚ) / (st.max_score : ℚ)) * 100) else none

/-- The results appended between an earlier state and a later one. -/
def newResults (st stNew : St) : List CheckResult :=
  stNew.report.drop st.report.length

/-- Status of the first result appended between two states. -/
def statusOfNew (st stNew : St) : Option String :=
  (newResults st stNew).head?.map CheckResult.status

/-- Message of the first result appended between two states. -/
def msgOfNew (st stNew : St) : Option String :=
  (newResults st stNew).head?.map CheckResult.message

/-- A state transformer whose effect is independent of the incoming state:
it appends its own results and adds its own score deltas.  Every check of
the tool has this shape because the globals are only ever appended to or
incremented. -/
def Frames (f : St → St) : Prop :=
  ∀ st, f st =
    ⟨st.report ++ (f initSt).report, st.score + (f initSt).score,
      st.max_score + (f initSt).max_score⟩

/-- Existential packaging of `Frames`: the transformer appends the fixed
delta `d` to any incoming state. -/
def FramesE (f : St → St) : Prop :=
  ∃ d : St, ∀ st, f st =
    ⟨st.report ++ d.report, st.score + d.score, st.max_score + d.max_score⟩

/-- A world where every probe fails and every file is missing. -/
def envAllFail : Env := ⟨fun _ => none, fun _ => false, fun _ => none⟩

/-- A world where files exist but every command probe yields no output
except that rkhunter is installed (its scan then fails). -/
def envProbesDown : Env :=
  ⟨fun c => if c = "command -v rkhunter" then some "/usr/bin/rkhunter" else none,
    fun _ => true, fun _ => none⟩

/-- A fully healthy world: every probe answers and every policy is met. -/
def envGood : Env :=
  { run_command := fun c =>
      if c = "systemctl is-active ufw" then some "active"
      else if c = "grep ^PermitRootLogin /etc/ssh/sshd_config || true" then
        some "PermitRootLogin no"
      else if c = "grep ^umask /etc/profile || true" then some "umask 027"
      else if c = "command -v rkhunter" then some "/usr/bin/rkhunter"
      else if c = "sudo rkhunter --check --rwo" then some "System checks summary"
      else some ""
    path_exists := fun _ => true
    stat_mode := fun p => if p = "/etc/passwd" then some "644" else some "640" }

/-- A world whose sshd config sets PermitRootLogin prohibit-password. -/
def envSshProhibit : Env :=
  ⟨fun c =>
      if c = "grep ^PermitRootLogin /etc/ssh/sshd_config || true" then
        some "PermitRootLogin prohibit-password"
      else none,
    fun _ => true, fun _ => none⟩

/-- A world where every file has octal mode 644. -/
def envBadPerms : Env :=
  ⟨fun c => if c = "grep ^umask /etc/profile || true" then some "umask 022" else none,
    fun _ => true, fun _ => some "644"⟩

/-- A world where rkhunter is installed and its scan reports warnings. -/
def envWarn : Env :=
  ⟨fun c =>
      if c = "command -v rkhunter" then some "/usr/bin/rkhunter"
      else if c = "sudo rkhunter --check --rwo" then some "Warning: suspicious file properties"
      else none,
    fun _ => true, fun _ => none⟩

/-! ## Helper lemmas -/

theorem frames_comp {f g : St → St} (hf : Frames f) (hg : Frames g) :
    ∀ st, g (f st) =
      ⟨st.report ++ (g (f initSt)).report, st.score + (g (f initSt)).score,
        st.max_score + (g (f initSt)).max_score⟩ := by
  intro st
  rw [hg (f st), hf st, hg (f initSt)]
  simp [St.mk.injEq, List.append_assoc, Nat.add_assoc]

theorem frames_firewall (env : Env) : Frames (check_firewall env) := by
  intro st
  simp only [check_firewall, append1, initSt]
  split_ifs <;> simp

theorem frames_ssh (env : Env) : Frames (check_ssh_config env) := by
  intro st
  simp only [check_ssh_config, append1, initSt]
  split_ifs <;> simp

theorem frames_one_file (env : Env) (fp : String) (ps : List String) :
    Frames (fun st => check_one_file env st fp ps) := by
  intro st
  rcases h : env.stat_mode fp with _ | m <;>
    simp only [check_one_file, append1, initSt, h] <;> split_ifs <;> simp

theorem frames_services (env : Env) : Frames (check_unused_services env) := by
  intro st
  rcases h : env.run_command
      "systemctl list-unit-files --type=service --state=enabled | grep .service" with _ | s <;>
    simp only [check_unused_services, append1, initSt, h] <;> simp

theorem frames_rootkits (env : Env) : Frames (check_rootkits env) := by
  intro st
  simp only [check_rootkits, append1, initSt]
  rcases h : env.run_command "sudo rkhunter --check --rwo" with _ | s <;>
    simp only [h] <;> split_ifs <;> simp

theorem umask_fst_frame (env : Env) (st : St) :
    (check_cis_umask env st).1 =
      ⟨st.report ++ (check_cis_umask env initSt).1.report,
        st.score + (check_cis_umask env initSt).1.score,
        st.max_score + (check_cis_umask env initSt).1.max_score⟩ := by
  rcases h : env.run_command "grep ^umask /etc/profile || true" with _ | u <;>
    simp only [check_cis_umask, append1, initSt, h] <;> (try split_ifs) <;> simp

theorem umask_snd_const (env : Env) (st : St) :
    (check_cis_umask env st).2 = (check_cis_umask env initSt).2 := by
  rcases h : env.run_command "grep ^umask /etc/profile || true" with _ | u <;>
    simp only [check_cis_umask, append1, initSt, h] <;> (try split_ifs) <;> simp

theorem frames_perms (env : Env) : Frames (check_file_permissions env) := by
  intro st
  exact frames_comp (frames_one_file env "/etc/passwd" ["644"])
    (frames_one_file env "/etc/shadow" ["640", "600", "400"]) st

theorem framesE_comp {f g : St → St} (hf : FramesE f) (hg : FramesE g) :
    FramesE (fun st => g (f st)) := by
  obtain ⟨a, ha⟩ := hf
  obtain ⟨b, hb⟩ := hg
  refine ⟨⟨a.report ++ b.report, a.score + b.score, a.max_score + b.max_score⟩, fun st => ?_⟩
  show g (f st) = _
  rw [hb, ha]
  simp [St.mk.injEq, List.append_assoc, Nat.add_assoc]

theorem framesE_pre (env : Env) :
    FramesE (fun st => check_file_permissions env (check_ssh_config env (check_firewall env st))) :=
  framesE_comp (framesE_comp ⟨_, frames_firewall env⟩ ⟨_, frames_ssh env⟩)
    ⟨_, frames_perms env⟩

theorem framesE_post (env : Env) :
    FramesE (fun st => check_rootkits env (check_unused_services env st)) :=
  framesE_comp ⟨_, frames_services env⟩ ⟨_, frames_rootkits env⟩

theorem umask_frameE (env : Env) :
    ∃ (d : St) (e : Option String), ∀ st,
      check_cis_umask env st =
        (⟨st.report ++ d.report, st.score + d.score, st.max_score + d.max_score⟩, e) := by
  refine ⟨(check_cis_umask env initSt).1, (check_cis_umask env initSt).2, fun st => ?_⟩
  have h1 := umask_fst_frame env st
  have h2 := umask_snd_const env st
  exact Prod.ext h1 h2

/-- The whole audit run appends a fixed batch of results and fixed score
deltas to whatever the globals held before, and aborts (or not) at the
same point, independently of the incoming state. -/
theorem runAuditFrom_frameE (env : Env) :
    ∃ (d : St) (e : Option String), ∀ st,
      runAuditFrom env st =
        (⟨st.report ++ d.report, st.score + d.score, st.max_score + d.max_score⟩, e) := by
  obtain ⟨a, ha⟩ := framesE_pre env
  obtain ⟨b, hb⟩ := framesE_post env
  obtain ⟨u, e, hu⟩ := umask_frameE env
  have ha2 : ∀ st : St, check_file_permissions env (check_ssh_config env (check_firewall env st)) =
      ⟨st.report ++ a.report, st.score + a.score, st.max_score + a.max_score⟩ := ha
  have hb2 : ∀ st : St, check_rootkits env (check_unused_services env st) =
      ⟨st.report ++ b.report, st.score + b.score, st.max_score + b.max_score⟩ := hb
  rcases e with _ | err
  · refine ⟨⟨a.report ++ u.report ++ b.report, a.score + u.score + b.score,
      a.max_score + u.max_score + b.max_score⟩, none, fun st => ?_⟩
    simp only [runAuditFrom, hu, ha2, hb2]
    simp [St.mk.injEq, List.append_assoc, Nat.add_assoc]
  · refine ⟨⟨a.report ++ u.report, a.score + u.score, a.max_score + u.max_score⟩,
      some err, fun st => ?_⟩
    simp only [runAuditFrom, hu, ha2]
    simp [St.mk.injEq, List.append_assoc, Nat.add_assoc]

/-! ## Claim theorems -/

/-- C1: every scorable check instance — Firewall, SSH root login, one
instance per file-permission target, Default umask — adds exactly 1 to
`max_score` on each execution whatever its outcome, and adds exactly 1 to
`score` if and only if the result it emits has status PASS. -/
theorem scorable_checks_score_accounting (env : Env) (st : St)
    (file_path : String) (perms_list : List String) :
    ((check_firewall env st).max_score = st.max_score + 1 ∧
      ((check_firewall env st).score = st.score + 1 ↔
        statusOfNew st (check_firewall env st) = some "PASS")) ∧
    ((check_ssh_config env st).max_score = st.max_score + 1 ∧
      ((check_ssh_config env st).score = st.score + 1 ↔
        statusOfNew st (check_ssh_config env st) = some "PASS")) ∧
    ((check_one_file env st file_path perms_list).max_score = st.max_score + 1 ∧
      ((check_one_file env st file_path perms_list).score = st.score + 1 ↔
        statusOfNew st (check_one_file env st file_path perms_list) = some "PASS")) ∧
    ((check_cis_umask env st).1.max_score = st.max_score + 1 ∧
      ((check_cis_umask env st).1.score = st.score + 1 ↔
        statusOfNew st (check_cis_umask env st).1 = some "PASS")) := by
  refine ⟨?_, ?_, ?_, ?_⟩
  · simp only [check_firewall, append1, statusOfNew, newResults]
    split_ifs <;> simp
  · simp only [check_ssh_config, append1, statusOfNew, newResults]
    split_ifs <;> simp
  · rcases h : env.stat_mode file_path with _ | m <;>
      simp only [check_one_file, append1, statusOfNew, newResults, h] <;>
      (try split_ifs) <;> simp
  · rcases h : env.run_command "grep ^umask /etc/profile || true" with _ | u <;>
      simp only [check_cis_umask, append1, statusOfNew, newResults, h] <;>
      (try split_ifs) <;> simp

/-- C2 (code bug witness): when the umask probe yields no output (probe
timeout or launch failure), `check_cis_umask` does not append an ERROR
result — the membership test on `None` raises a TypeError that propagates
out of the check. -/
theorem umask_check_raises_on_probe_failure :
    (check_cis_umask envAllFail initSt).2 =
      some "TypeError: argument of type NoneType is not iterable" ∧
    newResults initSt (check_cis_umask envAllFail initSt).1 = [] :=
  ⟨rfl, rfl⟩

/-- C4 (code bug witness): in a healthy world the audit emits the seven
results of the six checks in the fixed order Firewall, SSH root login,
file permissions (passwd, shadow), Default umask, Enabled services,
Rootkit scan; but when the umask probe yields no output the run aborts
with the uncaught TypeError after the fourth check, so the Enabled
services and Rootkit scan checks never run. -/
theorem audit_order_and_abort :
    ((runAudit envGood).2 = none ∧
      (runAudit envGood).1.report.map CheckResult.check =
        ["Firewall", "SSH Root Login", "Permissions: /etc/passwd",
          "Permissions: /etc/shadow", "CIS: Default Umask", "Enabled Services",
          "Rootkit Scan"]) ∧
    ((runAudit envAllFail).2 =
        some "TypeError: argument of type NoneType is not iterable" ∧
      (runAudit envAllFail).1.report.map CheckResult.check =
        ["Firewall", "SSH Root Login", "Permissions: /etc/passwd",
          "Permissions: /etc/shadow"]) :=
  ⟨⟨rfl, rfl⟩, ⟨rfl, rfl⟩⟩

/-- C5: the final report is the non-numeric "No scorable checks were
completed" outcome iff `max_score = 0`; otherwise the reported percentage
is exactly `100 * score / max_score`. -/
theorem percentage_iff_and_value (st : St) :
    (percentage st = none ↔ st.max_score = 0) ∧
    (st.max_score ≠ 0 →
      percentage st = some (100 * (st.score : ℚ) / (st.max_score : ℚ))) := by
  constructor
  · rcases Nat.eq_zero_or_pos st.max_score with h | h <;>
      simp [percentage, h, Nat.pos_iff_ne_zero.mp]
  · intro h
    simp only [percentage, Nat.pos_of_ne_zero h, if_pos]
    congr 1
    ring

/-- Witness for C5 at `score = 3`, `max_score = 5`. -/
theorem percentage_iff_and_value_witness :
    percentage ⟨[], 3, 5⟩ = some (100 * ((3 : Nat) : ℚ) / ((5 : Nat) : ℚ)) :=
  (percentage_iff_and_value ⟨[], 3, 5⟩).2 (by decide)

/-- C3 counterexample: the SSH config file exists but the grep probe fails
to run (the helper yields no output); the check emits FAIL — quoting the
rendered None — rather than ERROR. -/
theorem ssh_probe_failure_emits_fail :
    statusOfNew initSt (check_ssh_config envProbesDown initSt) = some "FAIL" ∧
    msgOfNew initSt (check_ssh_config envProbesDown initSt) =
      some "PermitRootLogin is NOT securely set to no. Found: None" :=
  ⟨rfl, rfl⟩

/-- C3 amended: when a probe fails to run, the Firewall, file-permission,
Enabled services and Rootkit checks emit ERROR, and the SSH check emits
ERROR when its config file is missing; but when the SSH config file
exists and the grep probe yields no output, the check emits FAIL, and the
Default umask check raises instead of emitting any result.  A scorable
ERROR increments max_score and never score. -/
theorem probe_failure_status (env : Env) (st : St) (fp : String) (ps : List String) :
    (env.run_command "systemctl is-active ufw" = none →
      statusOfNew st (check_firewall env st) = some "ERROR" ∧
      (check_firewall env st).max_score = st.max_score + 1 ∧
      (check_firewall env st).score = st.score) ∧
    (env.path_exists "/etc/ssh/sshd_config" = false →
      statusOfNew st (check_ssh_config env st) = some "ERROR" ∧
      (check_ssh_config env st).max_score = st.max_score + 1 ∧
      (check_ssh_config env st).score = st.score) ∧
    (env.path_exists "/etc/ssh/sshd_config" = true →
      env.run_command "grep ^PermitRootLogin /etc/ssh/sshd_config || true" = none →
      statusOfNew st (check_ssh_config env st) = some "FAIL") ∧
    (env.path_exists fp = false →
      statusOfNew st (check_one_file env st fp ps) = some "ERROR" ∧
      (check_one_file env st fp ps).max_score = st.max_score + 1 ∧
      (check_one_file env st fp ps).score = st.score) ∧
    (env.path_exists fp = true → env.stat_mode fp = none →
      statusOfNew st (check_one_file env st fp ps) = some "ERROR" ∧
      (check_one_file env st fp ps).max_score = st.max_score + 1 ∧
      (check_one_file env st fp ps).score = st.score) ∧
    (env.run_command "grep ^umask /etc/profile || true" = none →
      (check_cis_umask env st).2.isSome = true ∧
      newResults st (check_cis_umask env st).1 = [] ∧
      (check_cis_umask env st).1.max_score = st.max_score + 1 ∧
      (check_cis_umask env st).1.score = st.score) ∧
    (env.run_command
        "systemctl list-unit-files --type=service --state=enabled | grep .service" = none →
      statusOfNew st (check_unused_services env st) = some "ERROR") ∧
    (env.run_command "command -v rkhunter" = none →
      statusOfNew st (check_rootkits env st) = some "ERROR") ∧
    (env.run_command "command -v rkhunter" ≠ none →
      env.run_command "sudo rkhunter --check --rwo" = none →
      statusOfNew st (check_rootkits env st) = some "ERROR") := by
  refine ⟨?_, ?_, ?_, ?_, ?_, ?_, ?_, ?_, ?_⟩
  · intro h
    simp [check_firewall, append1, statusOfNew, newResults, h]
  · intro h
    simp [check_ssh_config, append1, statusOfNew, newResults, h]
  · intro h1 h2
    simp [check_ssh_config, append1, statusOfNew, newResults, h1, h2]
  · intro h
    simp [check_one_file, append1, statusOfNew, newResults, h]
  · intro h1 h2
    simp [check_one_file, append1, statusOfNew, newResults, h1, h2]
  · intro h
    simp [check_cis_umask, append1, statusOfNew, newResults, h]
  · intro h
    simp [check_unused_services, append1, statusOfNew, newResults, h]
  · intro h
    simp [check_rootkits, append1, statusOfNew, newResults, h]
  · intro h1 h2
    rcases h : env.run_command "command -v rkhunter" with _ | x
    · exact absurd h h1
    · simp [check_rootkits, append1, statusOfNew, newResults, h, h2]

/-- Witness for the amended C3, at two concrete worlds. -/
theorem probe_failure_status_witness :
    statusOfNew initSt (check_firewall envProbesDown initSt) = some "ERROR" ∧
    statusOfNew initSt (check_ssh_config envAllFail initSt) = some "ERROR" ∧
    statusOfNew initSt (check_ssh_config envProbesDown initSt) = some "FAIL" ∧
    statusOfNew initSt
        (check_one_file envAllFail initSt "/etc/shadow" ["640", "600", "400"]) =
      some "ERROR" ∧
    statusOfNew initSt
        (check_one_file envProbesDown initSt "/etc/shadow" ["640", "600", "400"]) =
      some "ERROR" ∧
    (check_cis_umask envProbesDown initSt).2.isSome = true ∧
    statusOfNew initSt (check_unused_services envProbesDown initSt) = some "ERROR" ∧
    statusOfNew initSt (check_rootkits envAllFail initSt) = some "ERROR" ∧
    statusOfNew initSt (check_rootkits envProbesDown initSt) = some "ERROR" := by
  obtain ⟨h1, -, h3, -, h5, h6, h7, -, h9⟩ :=
    probe_failure_status envProbesDown initSt "/etc/shadow" ["640", "600", "400"]
  obtain ⟨-, h2, -, h4, -, -, -, h8, -⟩ :=
    probe_failure_status envAllFail initSt "/etc/shadow" ["640", "600", "400"]
  exact ⟨(h1 rfl).1, (h2 rfl).1, h3 rfl rfl, (h4 rfl).1, (h5 rfl rfl).1, (h6 rfl).1,
    h7 rfl, h8 rfl, h9 (by decide) rfl⟩

/-- C6 counterexample: the globals persist inside one process, so the
second of two audit invocations does not reproduce the first invocation's
report — the report grows from 7 to 14 entries and max_score doubles from
5 to 10. -/
theorem second_audit_not_identical :
    (runAuditFrom envGood (runAudit envGood).1).1 ≠ (runAudit envGood).1 ∧
    (runAudit envGood).1.max_score = 5 ∧
    (runAuditFrom envGood (runAudit envGood).1).1.max_score = 10 ∧
    (runAudit envGood).1.report.length = 7 ∧
    (runAuditFrom envGood (runAudit envGood).1).1.report.length = 14 := by
  have h5 : (runAudit envGood).1.max_score = 5 := rfl
  have h10 : (runAuditFrom envGood (runAudit envGood).1).1.max_score = 10 := rfl
  refine ⟨fun h => ?_, h5, h10, rfl, rfl⟩
  rw [h, h5] at h10
  exact absurd h10 (by decide)

/-- C6 amended: the audit is a deterministic function of the probe world,
but the globals are never reset, so the second of two invocations within
one process appends an identical copy of the first invocation's results
and doubles both counters instead of reproducing the same report; runs
started from the fresh initial state coincide. -/
theorem second_audit_appends_copy (env : Env) :
    (runAuditFrom env (runAudit env).1).1.report =
      (runAudit env).1.report ++ (runAudit env).1.report ∧
    (runAuditFrom env (runAudit env).1).1.score = 2 * (runAudit env).1.score ∧
    (runAuditFrom env (runAudit env).1).1.max_score = 2 * (runAudit env).1.max_score ∧
    (runAuditFrom env (runAudit env).1).2 = (runAudit env).2 := by
  obtain ⟨d, e, hf⟩ := runAuditFrom_frameE env
  have h0 : runAudit env = (⟨initSt.report ++ d.report, initSt.score + d.score,
      initSt.max_score + d.max_score⟩, e) := hf initSt
  rw [h0, hf]
  simp [initSt, two_mul]

/-- C7: the SSH root login check passes iff the grep probe returns exactly
the line PermitRootLogin no; any other matched or absent value gives FAIL
with a message quoting the found text; a missing config file gives ERROR
without consulting the probe — the emitted result is a constant
independent of the probe primitives. -/
theorem ssh_check_policy (env : Env) (st : St) :
    (env.path_exists "/etc/ssh/sshd_config" = true →
      (statusOfNew st (check_ssh_config env st) = some "PASS" ↔
        env.run_command "grep ^PermitRootLogin /etc/ssh/sshd_config || true" =
          some "PermitRootLogin no") ∧
      (env.run_command "grep ^PermitRootLogin /etc/ssh/sshd_config || true" ≠
          some "PermitRootLogin no" →
        statusOfNew st (check_ssh_config env st) = some "FAIL" ∧
        msgOfNew st (check_ssh_config env st) =
          some ("PermitRootLogin is NOT securely set to no. Found: " ++
            pyStr (env.run_command
              "grep ^PermitRootLogin /etc/ssh/sshd_config || true")))) ∧
    (env.path_exists "/etc/ssh/sshd_config" = false →
      check_ssh_config env st =
        append1 { st with max_score := st.max_score + 1 }
          ⟨"SSH Root Login", "ERROR",
            "SSH config file not found at /etc/ssh/sshd_config.",
            "Ensure SSH server is installed correctly."⟩) := by
  constructor
  · intro hpe
    constructor
    · by_cases h : env.run_command "grep ^PermitRootLogin /etc/ssh/sshd_config || true" =
          some "PermitRootLogin no"
      · simp [check_ssh_config, hpe, h, append1, statusOfNew, newResults]
      · simp [check_ssh_config, hpe, h, append1, statusOfNew, newResults]
    · intro hne
      simp [check_ssh_config, hpe, hne, append1, statusOfNew, msgOfNew, newResults]
  · intro hpe
    simp [check_ssh_config, hpe, append1]

/-- Witness for C7: a config line PermitRootLogin prohibit-password gives
FAIL quoting that line; a missing config file gives the ERROR result. -/
theorem ssh_check_policy_witness :
    (statusOfNew initSt (check_ssh_config envSshProhibit initSt) = some "FAIL" ∧
      msgOfNew initSt (check_ssh_config envSshProhibit initSt) =
        some ("PermitRootLogin is NOT securely set to no. Found: " ++
          pyStr (envSshProhibit.run_command
            "grep ^PermitRootLogin /etc/ssh/sshd_config || true"))) ∧
    check_ssh_config envAllFail initSt =
      append1 { initSt with max_score := initSt.max_score + 1 }
        ⟨"SSH Root Login", "ERROR",
          "SSH config file not found at /etc/ssh/sshd_config.",
          "Ensure SSH server is installed correctly."⟩ :=
  ⟨((ssh_check_policy envSshProhibit initSt).1 rfl).2 (by decide),
    (ssh_check_policy envAllFail initSt).2 rfl⟩

/-- C8: within the file-permission check, the /etc/shadow instance passes
iff the stat mode is one of 640, 600, 400 (so 644 fails); a missing file
gives ERROR, which increments max_score and not score. -/
theorem shadow_permission_policy (env : Env) (st : St) :
    (check_file_permissions env st =
      check_one_file env (check_one_file env st "/etc/passwd" ["644"])
        "/etc/shadow" ["640", "600", "400"]) ∧
    (∀ m, env.path_exists "/etc/shadow" = true →
      env.stat_mode "/etc/shadow" = some m →
      ((statusOfNew st (check_one_file env st "/etc/shadow" ["640", "600", "400"]) =
          some "PASS") ↔ (m = "640" ∨ m = "600" ∨ m = "400")) ∧
      (¬(m = "640" ∨ m = "600" ∨ m = "400") →
        statusOfNew st (check_one_file env st "/etc/shadow" ["640", "600", "400"]) =
          some "FAIL")) ∧
    (env.path_exists "/etc/shadow" = false →
      statusOfNew st (check_one_file env st "/etc/shadow" ["640", "600", "400"]) =
        some "ERROR" ∧
      (check_one_file env st "/etc/shadow" ["640", "600", "400"]).max_score =
        st.max_score + 1 ∧
      (check_one_file env st "/etc/shadow" ["640", "600", "400"]).score = st.score) := by
  refine ⟨rfl, ?_, ?_⟩
  · intro m hpe hsm
    simp only [check_one_file, hpe, hsm, append1, statusOfNew, newResults]
    constructor
    · split_ifs with h <;> simp_all
    · intro hm
      split_ifs with h <;> simp_all
  · intro hpe
    simp [check_one_file, hpe, append1, statusOfNew, newResults]

/-- Witness for C8: shadow mode 644 gives FAIL, missing shadow file gives
ERROR. -/
theorem shadow_permission_policy_witness :
    statusOfNew initSt
        (check_one_file envBadPerms initSt "/etc/shadow" ["640", "600", "400"]) =
      some "FAIL" ∧
    statusOfNew initSt
        (check_one_file envAllFail initSt "/etc/shadow" ["640", "600", "400"]) =
      some "ERROR" :=
  ⟨((shadow_permission_policy envBadPerms initSt).2.1 "644" rfl rfl).2 (by decide),
    ((shadow_permission_policy envAllFail initSt).2.2 rfl).1⟩

/-- C9: the Rootkit scan and Enabled services checks never change score or
max_score; the rootkit check gives ERROR when the scanner binary is
absent or the scan fails to run, WARNING exactly when the scan output
contains the Warning: marker, and PASS for a clean scan. -/
theorem informational_checks_never_score (env : Env) (st : St) :
    ((check_unused_services env st).score = st.score ∧
      (check_unused_services env st).max_score = st.max_score) ∧
    ((check_rootkits env st).score = st.score ∧
      (check_rootkits env st).max_score = st.max_score) ∧
    (env.run_command "command -v rkhunter" = none →
      statusOfNew st (check_rootkits env st) = some "ERROR") ∧
    (env.run_command "command -v rkhunter" ≠ none →
      env.run_command "sudo rkhunter --check --rwo" = none →
      statusOfNew st (check_rootkits env st) = some "ERROR") ∧
    (∀ o, env.run_command "command -v rkhunter" ≠ none →
      env.run_command "sudo rkhunter --check --rwo" = some o →
      ((statusOfNew st (check_rootkits env st) = some "WARNING") ↔
        pyIn "Warning:" o = true) ∧
      (pyIn "Warning:" o = false →
        statusOfNew st (check_rootkits env st) = some "PASS")) := by
  refine ⟨?_, ?_, ?_, ?_, ?_⟩
  · rcases h : env.run_command
        "systemctl list-unit-files --type=service --state=enabled | grep .service" with
      _ | s <;> simp [check_unused_services, append1, h]
  · rcases h : env.run_command "command -v rkhunter" with _ | x <;>
      rcases h2 : env.run_command "sudo rkhunter --check --rwo" with _ | o <;>
      simp [check_rootkits, append1, h, h2] <;> (try split_ifs) <;> simp
  · intro h
    simp [check_rootkits, append1, statusOfNew, newResults, h]
  · intro h1 h2
    rcases h : env.run_command "command -v rkhunter" with _ | x
    · exact absurd h h1
    · simp [check_rootkits, append1, statusOfNew, newResults, h, h2]
  · intro o h1 h2
    rcases h : env.run_command "command -v rkhunter" with _ | x
    · exact absurd h h1
    · constructor
      · by_cases hw : pyIn "Warning:" o = true <;>
          simp [check_rootkits, append1, statusOfNew, newResults, h, h2, hw]
      · intro hw
        simp [check_rootkits, append1, statusOfNew, newResults, h, h2, hw]

/-- Witness for C9 over four concrete worlds: scanner missing, scan
failing, scan with warnings, clean scan. -/
theorem informational_checks_never_score_witness :
    statusOfNew initSt (check_rootkits envAllFail initSt) = some "ERROR" ∧
    statusOfNew initSt (check_rootkits envProbesDown initSt) = some "ERROR" ∧
    statusOfNew initSt (check_rootkits envWarn initSt) = some "WARNING" ∧
    statusOfNew initSt (check_rootkits envGood initSt) = some "PASS" := by
  refine ⟨(informational_checks_never_score envAllFail initSt).2.2.1 rfl,
    (informational_checks_never_score envProbesDown initSt).2.2.2.1 (by decide) rfl,
    ?_, ?_⟩
  · exact ((informational_checks_never_score envWarn initSt).2.2.2.2
      "Warning: suspicious file properties" (by decide) rfl).1.mpr (by decide)
  · exact ((informational_checks_never_score envGood initSt).2.2.2.2
      "System checks summary" (by decide) rfl).2 (by decide)

theorem fw_mono (env : Env) {st : St} (h : st.score ≤ st.max_score) :
    (check_firewall env st).score ≤ (check_firewall env st).max_score := by
  simp only [check_firewall, append1]
  split_ifs <;> simp <;> omega

theorem ssh_mono (env : Env) {st : St} (h : st.score ≤ st.max_score) :
    (check_ssh_config env st).score ≤ (check_ssh_config env st).max_score := by
  simp only [check_ssh_config, append1]
  split_ifs <;> simp <;> omega

theorem one_file_mono (env : Env) (fp : String) (ps : List String) {st : St}
    (h : st.score ≤ st.max_score) :
    (check_one_file env st fp ps).score ≤ (check_one_file env st fp ps).max_score := by
  rcases hm : env.stat_mode fp with _ | m <;>
    simp only [check_one_file, append1, hm] <;> (try split_ifs) <;> simp <;> omega

theorem perms_mono (env : Env) {st : St} (h : st.score ≤ st.max_score) :
    (check_file_permissions env st).score ≤ (check_file_permissions env st).max_score :=
  one_file_mono env "/etc/shadow" ["640", "600", "400"]
    (one_file_mono env "/etc/passwd" ["644"] h)

theorem umask_mono (env : Env) {st : St} (h : st.score ≤ st.max_score) :
    (check_cis_umask env st).1.score ≤ (check_cis_umask env st).1.max_score := by
  rcases hc : env.run_command "grep ^umask /etc/profile || true" with _ | u <;>
    simp only [check_cis_umask, append1, hc] <;> (try split_ifs) <;> (try simp) <;> omega

theorem services_mono (env : Env) {st : St} (h : st.score ≤ st.max_score) :
    (check_unused_services env st).score ≤ (check_unused_services env st).max_score := by
  rcases hc : env.run_command
      "systemctl list-unit-files --type=service --state=enabled | grep .service" with
    _ | s <;> simp [check_unused_services, append1, hc, h]

theorem rootkits_mono (env : Env) {st : St} (h : st.score ≤ st.max_score) :
    (check_rootkits env st).score ≤ (check_rootkits env st).max_score := by
  rcases hc : env.run_command "command -v rkhunter" with _ | x <;>
    rcases h2 : env.run_command "sudo rkhunter --check --rwo" with _ | o <;>
    simp [check_rootkits, append1, hc, h2, h] <;> (try split_ifs) <;> simp [h]

theorem runAuditFrom_mono (env : Env) {st : St} (h : st.score ≤ st.max_score) :
    (runAuditFrom env st).1.score ≤ (runAuditFrom env st).1.max_score := by
  have h4 : (check_cis_umask env (check_file_permissions env
      (check_ssh_config env (check_firewall env st)))).1.score ≤
      (check_cis_umask env (check_file_permissions env
        (check_ssh_config env (check_firewall env st)))).1.max_score :=
    umask_mono env (perms_mono env (ssh_mono env (fw_mono env h)))
  simp only [runAuditFrom]
  rcases hc : check_cis_umask env (check_file_permissions env
      (check_ssh_config env (check_firewall env st))) with ⟨u1, u2⟩
  rw [hc] at h4
  rcases u2 with _ | e
  · simpa using rootkits_mono env (services_mono env h4)
  · simpa using h4

/-- C10: starting from `score ≤ max_score` (in particular from the initial
zeros), every check preserves `score ≤ max_score` — no check increments
`score` without having incremented `max_score` in the same execution —
and a full audit invocation ends with `score ≤ max_score`. -/
theorem score_le_max_invariant (env : Env) (st : St) (fp : String) (ps : List String)
    (h : st.score ≤ st.max_score) :
    (check_firewall env st).score ≤ (check_firewall env st).max_score ∧
    (check_ssh_config env st).score ≤ (check_ssh_config env st).max_score ∧
    (check_one_file env st fp ps).score ≤ (check_one_file env st fp ps).max_score ∧
    (check_file_permissions env st).score ≤ (check_file_permissions env st).max_score ∧
    (check_cis_umask env st).1.score ≤ (check_cis_umask env st).1.max_score ∧
    (check_unused_services env st).score ≤ (check_unused_services env st).max_score ∧
    (check_rootkits env st).score ≤ (check_rootkits env st).max_score ∧
    (runAuditFrom env st).1.score ≤ (runAuditFrom env st).1.max_score ∧
    (runAudit env).1.score ≤ (runAudit env).1.max_score :=
  ⟨fw_mono env h, ssh_mono env h, one_file_mono env fp ps h, perms_mono env h,
    umask_mono env h, services_mono env h, rootkits_mono env h,
    runAuditFrom_mono env h, runAuditFrom_mono env (Nat.le_refl 0)⟩

/-- Witness for C10: a full audit in the healthy world from the initial
zeroed globals ends with `score ≤ max_score`. -/
theorem score_le_max_invariant_witness :
    (runAudit envGood).1.score ≤ (runAudit envGood).1.max_score :=
  (score_le_max_invariant envGood initSt "/etc/shadow" ["640", "600", "400"]
    (by decide)).2.2.2.2.2.2.2.2

end LinuxAudit
